import Mathlib

/-!
Verification of the book CRUD service (`src/main.rs`) against its
specification. The Rust handlers are shallowly embedded: the Postgres
table is a list of rows, each SQL statement of the source becomes a pure
function on that list, and each tide handler becomes a function from its
request parts and the current table to a response, the new table and the
number of store round-trips it performed.
-/

namespace Crud

/-- A UUID value: the 128-bit number denoted by the identifier string
(`sqlx::types::Uuid` / `uuid::Uuid` in the source). -/
abbrev Uuid := Nat

/-- Hex value of one character, as accepted inside a UUID string. -/
def hexVal (c : Char) : Option Nat :=
  if '0' ≤ c ∧ c ≤ '9' then some (c.toNat - '0'.toNat)
  else if 'a' ≤ c ∧ c ≤ 'f' then some (c.toNat - 'a'.toNat + 10)
  else if 'A' ≤ c ∧ c ≤ 'F' then some (c.toNat - 'A'.toNat + 10)
  else none

/-- Read exactly `k` hex digits from the front of `cs`, accumulating their
value into `acc`; returns the value and the rest of the characters. -/
def hexGroup : List Char → Nat → Nat → Option (Nat × List Char)
  | cs, 0, acc => some (acc, cs)
  | [], _ + 1, _ => none
  | c :: cs, k + 1, acc =>
    match hexVal c with
    | some v => hexGroup cs k (acc * 16 + v)
    | none => none

/-- Consume a literal hyphen separator. -/
def expectDash : List Char → Option (List Char)
  | '-' :: cs => some cs
  | _ => none

/-- Modelled from the spec: identifier-format validation of the canonical
identifier textual form (8-4-4-4-12 hex digits separated by hyphens).
The validator itself is `Uuid::parse_str` of the external `uuid` crate,
which is not part of this repository; the spec calls the accepted format
the "canonical identifier textual form". Returns the 128-bit value on
success and `none` on a malformed identifier. -/
def parseUuid (s : String) : Option Uuid := do
  let (a, r) ← hexGroup s.data 8 0
  let r ← expectDash r
  let (b, r) ← hexGroup r 4 0
  let r ← expectDash r
  let (c, r) ← hexGroup r 4 0
  let r ← expectDash r
  let (d, r) ← hexGroup r 4 0
  let r ← expectDash r
  let (e, r) ← hexGroup r 12 0
  match r with
  | [] => some ((((a * 2 ^ 16 + b) * 2 ^ 16 + c) * 2 ^ 16 + d) * 2 ^ 48 + e)
  | _ => none

/-- Lower-case hex digit for a nibble. -/
def hexDigit (n : Nat) : Char :=
  if n < 10 then Char.ofNat (n + '0'.toNat) else Char.ofNat (n - 10 + 'a'.toNat)

/-- The `w` low nibbles of `v` as hex characters, most significant first. -/
def hexChars : Nat → Nat → List Char
  | 0, _ => []
  | w + 1, v => hexChars w (v / 16) ++ [hexDigit (v % 16)]

/-- Canonical hyphenated lower-case textual form of a UUID, as produced by
the `uuid` crate's `Serialize` implementation. -/
def uuidToString (n : Uuid) : String :=
  let ds := hexChars 32 n
  String.mk (ds.take 8 ++ '-' ::
    ((ds.drop 8).take 4 ++ '-' ::
      ((ds.drop 12).take 4 ++ '-' ::
        ((ds.drop 16).take 4 ++ '-' :: ds.drop 20))))

/-- The `Book` struct of the source:
`id: Uuid`, `name: Option<String>`, `author: Option<String>`,
`year: Option<i32>`. The `i32` range restriction on `year` is enforced at
JSON decode time (`decodeOptI32`). -/
structure Book where
  id : Uuid
  name : Option String
  author : Option String
  year : Option Int
  deriving DecidableEq, Repr

/-- JSON values as relevant to this service's wire format (the bodies the
service reads and writes only ever hold strings, integers, nulls, objects
and arrays). -/
inductive Json where
  | null : Json
  | str : String → Json
  | num : Int → Json
  | obj : List (String × Json) → Json
  | arr : List Json → Json

/-- Field lookup inside a JSON object, first occurrence wins. -/
def jLookup (fields : List (String × Json)) (k : String) : Option Json :=
  (fields.find? (fun p => p.1 == k)).map (fun p => p.2)

/-- Decode the required `id` field: serde requires the field to be present
(its type is not `Option`), and the `uuid` crate deserializes it from its
string form, failing on a malformed identifier. -/
def decodeUuidField : Option Json → Except String Uuid
  | some (Json.str s) =>
    match parseUuid s with
    | some n => Except.ok n
    | none => Except.error "invalid uuid"
  | some _ => Except.error "invalid type: expected uuid string"
  | none => Except.error "missing field id"

/-- Decode an `Option<String>` field: serde maps an absent field and a JSON
null both to `None`. -/
def decodeOptString : Option Json → Except String (Option String)
  | none => Except.ok none
  | some Json.null => Except.ok none
  | some (Json.str s) => Except.ok (some s)
  | some _ => Except.error "invalid type: expected string or null"

/-- Smallest `i32` value. -/
def i32Min : Int := -(2 ^ 31)

/-- Largest `i32` value. -/
def i32Max : Int := 2 ^ 31 - 1

/-- Decode an `Option<i32>` field: serde maps an absent field and JSON null
to `None`, and rejects an integer outside the signed 32-bit range. -/
def decodeOptI32 : Option Json → Except String (Option Int)
  | none => Except.ok none
  | some Json.null => Except.ok none
  | some (Json.num n) =>
    if i32Min ≤ n ∧ n ≤ i32Max then Except.ok (some n)
    else Except.error "integer out of range for i32"
  | some _ => Except.error "invalid type: expected integer or null"

/-- serde deserialization of a `Book` from a JSON value
(`req.body_json::<Book>()` in the source): the body must be an object,
`id` is required, `name`, `author` and `year` are optional. -/
def decodeBook : Json → Except String Book
  | Json.obj fields =>
    match decodeUuidField (jLookup fields "id") with
    | Except.error e => Except.error e
    | Except.ok id =>
      match decodeOptString (jLookup fields "name") with
      | Except.error e => Except.error e
      | Except.ok name =>
        match decodeOptString (jLookup fields "author") with
        | Except.error e => Except.error e
        | Except.ok author =>
          match decodeOptI32 (jLookup fields "year") with
          | Except.error e => Except.error e
          | Except.ok year =>
            Except.ok { id := id, name := name, author := author, year := year }
  | _ => Except.error "invalid type: expected object"

/-- serde serialization of an `Option<String>` value. -/
def encodeOptStr : Option String → Json
  | none => Json.null
  | some s => Json.str s

/-- serde serialization of an `Option<i32>` value. -/
def encodeOptInt : Option Int → Json
  | none => Json.null
  | some n => Json.num n

/-- serde serialization of a `Book` (`Body::from_json(&row)` in the
source): fields in declaration order, `id` in canonical textual form. -/
def encodeBook (b : Book) : Json :=
  Json.obj [("id", Json.str (uuidToString b.id)),
            ("name", encodeOptStr b.name),
            ("author", encodeOptStr b.author),
            ("year", encodeOptInt b.year)]

/-- The `book` table of the relational store: one row per `Book`. -/
abbrev Table := List Book

/-- Store-level errors reported by sqlx. -/
inductive StoreErr where
  | uniqueViolation : StoreErr
  deriving DecidableEq, Repr

/-- Modelled from the spec: the persisted schema declares `id` a unique
key (the table itself is an external collaborator, created outside this
repository), so
`INSERT INTO book (id, name, author, year) VALUES ($1,$2,$3,$4)
RETURNING id, name, author, year`
fails with a uniqueness violation when a row with the same `id` exists,
and otherwise adds the row and returns it via the RETURNING clause. -/
def insertRow (b : Book) (t : Table) : Except StoreErr (Book × Table) :=
  if t.any (fun r => r.id == b.id) then Except.error StoreErr.uniqueViolation
  else Except.ok (b, t ++ [b])

/-- `SELECT * FROM book WHERE id = $1` with `fetch_optional`: zero or one
row (at most one matches the unique key). -/
def selectById (id : Uuid) (t : Table) : Option Book :=
  t.find? (fun r => r.id == id)

/-- `UPDATE book SET name = $2, author = $3, year = $4 WHERE id = $1
RETURNING id, name, author, year` with `fetch_optional`: replaces the
three mutable fields of the row selected by `id`, keeping its `id`
column, and returns the updated row; zero rows means the identifier did
not exist. -/
def updateById (id : Uuid) (nm au : Option String) (yr : Option Int)
    (t : Table) : Option Book × Table :=
  match t.find? (fun r => r.id == id) with
  | none => (none, t)
  | some r =>
    let r' : Book := { id := r.id, name := nm, author := au, year := yr }
    (some r', t.map (fun q => if q.id == id then r' else q))

/-- `DELETE FROM book WHERE id = $1` exactly as written in the source: the
statement carries NO RETURNING clause, so while the matching row is
removed from the table, the statement's result set is always empty (the
returned row list is `[]` no matter whether a row was deleted). -/
def deleteById (id : Uuid) (t : Table) : List Book × Table :=
  ([], t.filter (fun r => !(r.id == id)))

/-- The observable outcome of one handler invocation. `res` is a response
the handler built itself (`Response::new(..)` plus an optional JSON
body); `err` is a `tide::Error` the handler propagated with `?`, rendered
by the framework with the given status; `panicked` is the handler task
aborting on a `.unwrap()` of a failed parse — no response is produced by
the handler at all. -/
inductive HResponse where
  | res : Nat → Option Json → HResponse
  | err : Nat → HResponse
  | panicked : HResponse

/-- Result of running one handler: its response, the table afterwards, and
how many statements it sent to the store (store round-trips). -/
structure HandlerOut where
  response : HResponse
  table : Table
  storeCalls : Nat

/-- Modelled from the spec: the status with which the framework renders a
body-decode failure propagated out of a handler with `?` (tide's
error-to-response conversion is not code of this repository). The spec's
error taxonomy maps ClientInputError — a malformed JSON body — to 400. -/
def clientInputErrorStatus : Nat := 400

/-- Modelled from the spec: the status with which the framework renders a
store error propagated out of a handler with `?` (tide's
error-to-response conversion is not code of this repository). The spec
describes the source as propagating every store error undifferentiated
as a generic server-side failure: "the source's undifferentiated
propagation of all store errors as generic failures". -/
def storeErrorStatus : Nat := 500

/-- `create_book`: decode the body as a `Book` (`?` on failure), run the
INSERT .. RETURNING statement (`fetch_one`, `?` on store error), answer
201 with the returned row as JSON body. -/
def create_book (body : Json) (t : Table) : HandlerOut :=
  match decodeBook body with
  | Except.error _ =>
    { response := HResponse.err clientInputErrorStatus, table := t, storeCalls := 0 }
  | Except.ok book =>
    match insertRow book t with
    | Except.error _ =>
      { response := HResponse.err storeErrorStatus, table := t, storeCalls := 1 }
    | Except.ok (row, t') =>
      { response := HResponse.res 201 (some (encodeBook row)), table := t', storeCalls := 1 }

/-- `get_book`: `Uuid::parse_str(req.param("id")?).unwrap()` — a malformed
identifier panics the handler; otherwise SELECT by id with
`fetch_optional`: a row answers 200 with the row as body, no row answers
404 with empty body. -/
def get_book (idStr : String) (t : Table) : HandlerOut :=
  match parseUuid idStr with
  | none => { response := HResponse.panicked, table := t, storeCalls := 0 }
  | some id =>
    match selectById id t with
    | some row =>
      { response := HResponse.res 200 (some (encodeBook row)), table := t, storeCalls := 1 }
    | none => { response := HResponse.res 404 none, table := t, storeCalls := 1 }

/-- `update_book`: decode the body as a `Book` first (`?` on failure), then
`Uuid::parse_str(req.param("id")?).unwrap()` — a malformed identifier
panics; otherwise UPDATE .. RETURNING with `fetch_optional`, binding the
path id and the body's `name`/`author`/`year` (the body's `id` is never
bound): a row answers 200 with the updated row, no row answers 404. -/
def update_book (idStr : String) (body : Json) (t : Table) : HandlerOut :=
  match decodeBook body with
  | Except.error _ =>
    { response := HResponse.err clientInputErrorStatus, table := t, storeCalls := 0 }
  | Except.ok book =>
    match parseUuid idStr with
    | none => { response := HResponse.panicked, table := t, storeCalls := 0 }
    | some id =>
      match updateById id book.name book.author book.year t with
      | (some row, t') =>
        { response := HResponse.res 200 (some (encodeBook row)), table := t', storeCalls := 1 }
      | (none, t') =>
        { response := HResponse.res 404 none, table := t', storeCalls := 1 }

/-- `delete_book`: `Uuid::parse_str(req.param("id")?).unwrap()` — a
malformed identifier panics; otherwise the DELETE statement (which has no
RETURNING clause) with `fetch_optional` on its result set: a returned row
would answer 204, no returned row answers 404. -/
def delete_book (idStr : String) (t : Table) : HandlerOut :=
  match parseUuid idStr with
  | none => { response := HResponse.panicked, table := t, storeCalls := 0 }
  | some id =>
    let (rows, t') := deleteById id t
    match rows.head? with
    | some _ => { response := HResponse.res 204 none, table := t', storeCalls := 1 }
    | none => { response := HResponse.res 404 none, table := t', storeCalls := 1 }

/-! ### Store-level lemmas -/

lemma selectById_eq_none (id : Uuid) (t : Table) (h : ∀ r ∈ t, r.id ≠ id) :
    selectById id t = none := by
  rw [selectById, List.find?_eq_none]
  intro r hr
  simpa using h r hr

lemma selectById_cons_of_eq (id : Uuid) (q : Book) (t : Table)
    (hq : (q.id == id) = true) : selectById id (q :: t) = some q := by
  simp [selectById, List.find?, hq]

lemma selectById_cons_of_ne (id : Uuid) (q : Book) (t : Table)
    (hq : (q.id == id) = false) : selectById id (q :: t) = selectById id t := by
  simp [selectById, List.find?, hq]

lemma selectById_append_self (b : Book) (t : Table) (h : ∀ r ∈ t, r.id ≠ b.id) :
    selectById b.id (t ++ [b]) = some b := by
  induction t with
  | nil => exact selectById_cons_of_eq _ _ _ (by simp)
  | cons q t ih =>
    have hq : (q.id == b.id) = false := by
      simpa using h q (List.mem_cons_self q t)
    rw [List.cons_append, selectById_cons_of_ne _ _ _ hq]
    exact ih fun r hr => h r (List.mem_cons_of_mem _ hr)

lemma insertRow_fresh (b : Book) (t : Table) (h : ∀ r ∈ t, r.id ≠ b.id) :
    insertRow b t = Except.ok (b, t ++ [b]) := by
  have hany : t.any (fun r => r.id == b.id) = false := by
    rw [List.any_eq_false]
    intro r hr
    simpa using h r hr
  simp [insertRow, hany]

lemma selectById_replace (id : Uuid) (r' : Book) (hr' : r'.id = id) (t : Table)
    (r : Book) (h : selectById id t = some r) :
    selectById id (t.map (fun q => if q.id == id then r' else q)) = some r' := by
  induction t generalizing r with
  | nil => simp [selectById] at h
  | cons q t ih =>
    cases hq : (q.id == id) with
    | true =>
      rw [List.map_cons, if_pos hq]
      exact selectById_cons_of_eq _ _ _ (by simp [hr'])
    | false =>
      rw [selectById_cons_of_ne _ _ _ hq] at h
      rw [List.map_cons, if_neg (by simp [hq]), selectById_cons_of_ne _ _ _ hq]
      exact ih r h

lemma map_ids_replace (id : Uuid) (r' : Book) (hr' : r'.id = id) (t : Table) :
    (t.map (fun q => if q.id == id then r' else q)).map (fun b => b.id) =
      t.map (fun b => b.id) := by
  induction t with
  | nil => rfl
  | cons q t ih =>
    cases hq : (q.id == id) with
    | true =>
      have hqid : q.id = id := by simpa using hq
      simp only [List.map_cons, if_pos hq, ih]
      rw [hr', hqid]
    | false =>
      simp only [List.map_cons, if_neg (by simp [hq] : ¬ ((q.id == id) = true)), ih]

lemma filter_ne_id (id : Uuid) (t : Table) (h : ∀ r ∈ t, r.id ≠ id) :
    t.filter (fun r => !(r.id == id)) = t := by
  rw [List.filter_eq_self]
  intro r hr
  simpa using h r hr

/-! ### Concrete data for witnesses and counterexamples

The spec's worked scenario (§8): the book
`{"id":"11111111-1111-1111-1111-111111111111","name":"Dune","author":"Herbert","year":1965}`. -/

/-- The identifier of the spec's worked scenario. -/
def sampleId : Uuid := 0x11111111111111111111111111111111

/-- Its canonical textual form. -/
def sampleIdStr : String := "11111111-1111-1111-1111-111111111111"

/-- The book of the spec's worked scenario. -/
def sampleBook : Book :=
  { id := sampleId, name := some "Dune", author := some "Herbert", year := some 1965 }

/-- Its JSON wire form. -/
def sampleBookJson : Json :=
  Json.obj [("id", Json.str sampleIdStr), ("name", Json.str "Dune"),
            ("author", Json.str "Herbert"), ("year", Json.num 1965)]

/-- A second, distinct identifier. -/
def otherId : Uuid := 0x22222222222222222222222222222222

/-- Its canonical textual form. -/
def otherIdStr : String := "22222222-2222-2222-2222-222222222222"

/-- A JSON body whose `id` field names `otherId`. -/
def otherBookJson : Json :=
  Json.obj [("id", Json.str otherIdStr), ("name", Json.str "Emma"),
            ("author", Json.str "Austen"), ("year", Json.num 1815)]

/-- The Book `otherBookJson` decodes to. -/
def otherBook : Book :=
  { id := otherId, name := some "Emma", author := some "Austen", year := some 1815 }

/-- `otherBook` with the sample identifier: what an update of `sampleId`
with body `otherBookJson` stores. -/
def updatedSampleBook : Book :=
  { id := sampleId, name := some "Emma", author := some "Austen", year := some 1815 }

/-- A third identifier, never inserted anywhere below. -/
def goneId : Uuid := 0x33333333333333333333333333333333

/-- Its canonical textual form. -/
def goneIdStr : String := "33333333-3333-3333-3333-333333333333"

/-! ### Claim theorems -/

/-- Claim C1: the claim says a delete on an existing identifier removes
the record and answers 204 via a return-affected-row clause. The code's
DELETE statement has no RETURNING clause, so `fetch_optional` always
sees an empty result set: the record IS removed, but the handler answers
404, never 204 — the 204 branch is unreachable. Evaluation of the
handler at an existing identifier shows the divergence. -/
theorem delete_existing_book_responds_404 :
    delete_book sampleIdStr [sampleBook] =
      { response := HResponse.res 404 none, table := [], storeCalls := 1 } := rfl

/-- Claim C2: the claim says a malformed path identifier yields a 400
client error without a store call and without aborting. The code calls
`Uuid::parse_str(..).unwrap()`, so `get`, `update` and `delete` all
panic on a malformed identifier (no store call is made, but no 400 is
produced either — the handler aborts). -/
theorem malformed_id_panics_handlers :
    get_book "not-a-uuid" [sampleBook] =
      { response := HResponse.panicked, table := [sampleBook], storeCalls := 0 } ∧
    update_book "not-a-uuid" sampleBookJson [sampleBook] =
      { response := HResponse.panicked, table := [sampleBook], storeCalls := 0 } ∧
    delete_book "not-a-uuid" [sampleBook] =
      { response := HResponse.panicked, table := [sampleBook], storeCalls := 0 } :=
  ⟨rfl, rfl, rfl⟩

/-- Claim C3: the claim says a second create with an already-used
identifier answers a 4xx conflict distinct from validation errors. The
code propagates every store error undifferentiated with `?`, so the
uniqueness violation surfaces as the generic 5xx store-error response
(the insert does fail — no second row appears — but the status is 500,
not a 4xx). -/
theorem duplicate_create_responds_500 :
    create_book sampleBookJson [] =
      { response := HResponse.res 201 (some (encodeBook sampleBook)),
        table := [sampleBook], storeCalls := 1 } ∧
    create_book sampleBookJson [sampleBook] =
      { response := HResponse.err storeErrorStatus,
        table := [sampleBook], storeCalls := 1 } :=
  ⟨rfl, rfl⟩

/-- Claim C4: for every valid Book with a fresh identifier, `create` with
that Book answers 201, and a `get` with the same identifier against the
resulting table answers 200 with a record equal to the created Book in
all four fields (both bodies are the serialization of the same Book). -/
theorem create_then_get_roundtrip (body : Json) (idStr : String) (t : Table)
    (book : Book)
    (hdec : decodeBook body = Except.ok book)
    (hid : parseUuid idStr = some book.id)
    (hfresh : ∀ r ∈ t, r.id ≠ book.id) :
    create_book body t =
      { response := HResponse.res 201 (some (encodeBook book)),
        table := t ++ [book], storeCalls := 1 } ∧
    get_book idStr (t ++ [book]) =
      { response := HResponse.res 200 (some (encodeBook book)),
        table := t ++ [book], storeCalls := 1 } := by
  constructor
  · simp only [create_book, hdec, insertRow_fresh book t hfresh]
  · simp only [get_book, hid, selectById_append_self book t hfresh]

/-- Witness for C4 at the spec's worked scenario. -/
theorem create_then_get_roundtrip_witness :
    create_book sampleBookJson [] =
      { response := HResponse.res 201 (some (encodeBook sampleBook)),
        table := [sampleBook], storeCalls := 1 } ∧
    get_book sampleIdStr [sampleBook] =
      { response := HResponse.res 200 (some (encodeBook sampleBook)),
        table := [sampleBook], storeCalls := 1 } :=
  create_then_get_roundtrip sampleBookJson sampleIdStr [] sampleBook rfl rfl
    (by simp)

/-- Claim C7: a create whose body decodes as a Book and whose insert
succeeds answers 201 with exactly the row handed back by the INSERT's
RETURNING clause as body, in a single store round-trip. -/
theorem create_success_echoes_row (body : Json) (t : Table) (book : Book)
    (hdec : decodeBook body = Except.ok book)
    (hfresh : ∀ r ∈ t, r.id ≠ book.id) :
    create_book body t =
      { response := HResponse.res 201 (some (encodeBook book)),
        table := t ++ [book], storeCalls := 1 } := by
  simp only [create_book, hdec, insertRow_fresh book t hfresh]

/-- Witness for C7: a create against a table already holding another
record. -/
theorem create_success_echoes_row_witness :
    create_book otherBookJson [sampleBook] =
      { response := HResponse.res 201 (some (encodeBook otherBook)),
        table := [sampleBook, otherBook], storeCalls := 1 } :=
  create_success_echoes_row otherBookJson [sampleBook] otherBook rfl (by decide)

/-- Claim C5: an update on an existing identifier answers 200 with a
record whose `id` is the path identifier and whose `name`/`author`/`year`
come from the body; afterwards the record stored under the path
identifier carries that same `id`, and no row of the table changed its
`id` — all regardless of the `id` the body carries (the hypotheses place
no constraint relating `book.id` to the path identifier `id`). -/
theorem update_preserves_identity (idStr : String) (body : Json) (t : Table)
    (book r : Book) (id : Uuid)
    (hdec : decodeBook body = Except.ok book)
    (hid : parseUuid idStr = some id)
    (hex : selectById id t = some r) :
    (update_book idStr body t).response =
      HResponse.res 200 (some (encodeBook
        { id := id, name := book.name, author := book.author, year := book.year })) ∧
    selectById id (update_book idStr body t).table =
      some { id := id, name := book.name, author := book.author, year := book.year } ∧
    (update_book idStr body t).table.map (fun b => b.id) = t.map (fun b => b.id) := by
  have hex' : t.find? (fun q => q.id == id) = some r := hex
  have hrid : r.id = id := by
    have := List.find?_some hex'
    simpa using this
  have hupd : updateById id book.name book.author book.year t =
      (some { id := id, name := book.name, author := book.author, year := book.year },
       t.map (fun q => if q.id == id then
         { id := id, name := book.name, author := book.author, year := book.year }
         else q)) := by
    simp only [updateById, hex', hrid]
  refine ⟨?_, ?_, ?_⟩
  · simp only [update_book, hdec, hid, hupd]
  · simp only [update_book, hdec, hid, hupd]
    exact selectById_replace id _ rfl t r hex
  · simp only [update_book, hdec, hid, hupd]
    exact map_ids_replace id _ rfl t

/-- Witness for C5: the body carries a different `id` (`otherId`) than the
path (`sampleId`); the stored record keeps the path identifier. -/
theorem update_preserves_identity_witness :
    (update_book sampleIdStr otherBookJson [sampleBook]).response =
      HResponse.res 200 (some (encodeBook updatedSampleBook)) ∧
    selectById sampleId (update_book sampleIdStr otherBookJson [sampleBook]).table =
      some updatedSampleBook ∧
    (update_book sampleIdStr otherBookJson [sampleBook]).table.map (fun b => b.id) =
      [sampleBook].map (fun b => b.id) :=
  update_preserves_identity sampleIdStr otherBookJson [sampleBook]
    otherBook sampleBook sampleId rfl rfl rfl

/-- Claim C6: on a well-formed identifier that names no record, `get`,
`update` (with a well-formed body) and `delete` all answer 404 (and leave
the table unchanged). -/
theorem notfound_symmetry (idStr : String) (id : Uuid) (t : Table)
    (body : Json) (book : Book)
    (hid : parseUuid idStr = some id)
    (habs : ∀ r ∈ t, r.id ≠ id)
    (hdec : decodeBook body = Except.ok book) :
    get_book idStr t =
      { response := HResponse.res 404 none, table := t, storeCalls := 1 } ∧
    update_book idStr body t =
      { response := HResponse.res 404 none, table := t, storeCalls := 1 } ∧
    delete_book idStr t =
      { response := HResponse.res 404 none, table := t, storeCalls := 1 } := by
  have hsel : selectById id t = none := selectById_eq_none id t habs
  have hsel' : t.find? (fun q => q.id == id) = none := hsel
  refine ⟨?_, ?_, ?_⟩
  · simp only [get_book, hid, hsel]
  · simp only [update_book, hdec, hid, updateById, hsel']
  · simp only [delete_book, hid, deleteById, filter_ne_id id t habs, List.head?]

/-- Witness for C6 on a never-created identifier against a non-empty
table. -/
theorem notfound_symmetry_witness :
    get_book goneIdStr [sampleBook] =
      { response := HResponse.res 404 none, table := [sampleBook], storeCalls := 1 } ∧
    update_book goneIdStr sampleBookJson [sampleBook] =
      { response := HResponse.res 404 none, table := [sampleBook], storeCalls := 1 } ∧
    delete_book goneIdStr [sampleBook] =
      { response := HResponse.res 404 none, table := [sampleBook], storeCalls := 1 } :=
  notfound_symmetry goneIdStr goneId [sampleBook] sampleBookJson sampleBook
    rfl (by decide) rfl

/-- Claim C8: a body that does not decode as the expected JSON shape makes
`create` and `update` fail before any store call (zero store
round-trips), answering the client-input-error status. -/
theorem malformed_body_rejected (body : Json) (e : String) (idStr : String)
    (t : Table)
    (hdec : decodeBook body = Except.error e) :
    create_book body t =
      { response := HResponse.err clientInputErrorStatus, table := t, storeCalls := 0 } ∧
    update_book idStr body t =
      { response := HResponse.err clientInputErrorStatus, table := t, storeCalls := 0 } := by
  constructor
  · simp only [create_book, hdec]
  · simp only [update_book, hdec]

/-- Witness for C8: a body that is not even a JSON object. -/
theorem malformed_body_rejected_witness :
    create_book (Json.num 3) [sampleBook] =
      { response := HResponse.err clientInputErrorStatus, table := [sampleBook],
        storeCalls := 0 } ∧
    update_book sampleIdStr (Json.num 3) [sampleBook] =
      { response := HResponse.err clientInputErrorStatus, table := [sampleBook],
        storeCalls := 0 } :=
  malformed_body_rejected (Json.num 3) "invalid type: expected object"
    sampleIdStr [sampleBook] rfl

/-- Claim C9: the `Book` type makes `id` required while `name`, `author`
and `year` are optional: an update whose JSON body lacks the `id` field
fails deserialization and is rejected as malformed input (even though a
present body `id` is ignored), whereas an object carrying only a valid
`id` decodes to a Book with all optional fields absent. -/
theorem update_body_requires_id (fields : List (String × Json))
    (idStr : String) (t : Table) (s : String) (i : Uuid)
    (hmiss : jLookup fields "id" = none)
    (hs : parseUuid s = some i) :
    update_book idStr (Json.obj fields) t =
      { response := HResponse.err clientInputErrorStatus, table := t,
        storeCalls := 0 } ∧
    decodeBook (Json.obj [("id", Json.str s)]) =
      Except.ok { id := i, name := none, author := none, year := none } := by
  constructor
  · have hdec : decodeBook (Json.obj fields) =
        Except.error "missing field id" := by
      simp only [decodeBook, hmiss, decodeUuidField]
    simp only [update_book, hdec]
  · have h1 : jLookup [("id", Json.str s)] "id" = some (Json.str s) := rfl
    have h2 : jLookup [("id", Json.str s)] "name" = none := rfl
    have h3 : jLookup [("id", Json.str s)] "author" = none := rfl
    have h4 : jLookup [("id", Json.str s)] "year" = none := rfl
    simp only [decodeBook, h1, h2, h3, h4, decodeUuidField, hs,
      decodeOptString, decodeOptI32]

/-- Witness for C9: a body with only a `name` is rejected on update; a
body with only an `id` decodes with all optional fields `none`. -/
theorem update_body_requires_id_witness :
    update_book sampleIdStr (Json.obj [("name", Json.str "Dune")]) [sampleBook] =
      { response := HResponse.err clientInputErrorStatus, table := [sampleBook],
        storeCalls := 0 } ∧
    decodeBook (Json.obj [("id", Json.str goneIdStr)]) =
      Except.ok { id := goneId, name := none, author := none, year := none } :=
  update_body_requires_id [("name", Json.str "Dune")] sampleIdStr [sampleBook]
    goneIdStr goneId rfl rfl

/-- Claim C10: a `year` that is a JSON integer outside the signed 32-bit
range makes the body fail deserialization, so `create` and `update`
reject the request as malformed input; a `year` within the range decodes
exactly, and a successful create stores and echoes it unchanged. -/
theorem year_must_fit_i32 (fields : List (String × Json)) (idStr : String)
    (t : Table) (i : Uuid) (nm au : Option String) (n : Int)
    (hid : decodeUuidField (jLookup fields "id") = Except.ok i)
    (hnm : decodeOptString (jLookup fields "name") = Except.ok nm)
    (hau : decodeOptString (jLookup fields "author") = Except.ok au)
    (hyr : jLookup fields "year" = some (Json.num n)) :
    (¬ (i32Min ≤ n ∧ n ≤ i32Max) →
      create_book (Json.obj fields) t =
        { response := HResponse.err clientInputErrorStatus, table := t,
          storeCalls := 0 } ∧
      update_book idStr (Json.obj fields) t =
        { response := HResponse.err clientInputErrorStatus, table := t,
          storeCalls := 0 }) ∧
    ((i32Min ≤ n ∧ n ≤ i32Max) →
      decodeBook (Json.obj fields) =
        Except.ok { id := i, name := nm, author := au, year := some n } ∧
      ((∀ r ∈ t, r.id ≠ i) →
        create_book (Json.obj fields) t =
          { response := HResponse.res 201 (some (encodeBook
              { id := i, name := nm, author := au, year := some n })),
            table := t ++ [{ id := i, name := nm, author := au, year := some n }],
            storeCalls := 1 })) := by
  constructor
  · intro hout
    have hdec : decodeBook (Json.obj fields) =
        Except.error "integer out of range for i32" := by
      simp only [decodeBook, hid, hnm, hau, hyr, decodeOptI32, if_neg hout]
    exact ⟨by simp only [create_book, hdec], by simp only [update_book, hdec]⟩
  · intro hin
    have hdec : decodeBook (Json.obj fields) =
        Except.ok { id := i, name := nm, author := au, year := some n } := by
      simp only [decodeBook, hid, hnm, hau, hyr, decodeOptI32, if_pos hin]
    refine ⟨hdec, fun hfresh => ?_⟩
    simp only [create_book, hdec,
      insertRow_fresh { id := i, name := nm, author := au, year := some n } t hfresh]

/-- Witness for C10: `year = 2^31` is rejected; `year = 2^31 - 1` decodes
and is echoed by a create. -/
theorem year_must_fit_i32_witness :
    create_book (Json.obj [("id", Json.str goneIdStr), ("year", Json.num 2147483648)]) [] =
      { response := HResponse.err clientInputErrorStatus, table := [],
        storeCalls := 0 } ∧
    decodeBook (Json.obj [("id", Json.str goneIdStr), ("year", Json.num 2147483647)]) =
      Except.ok { id := goneId, name := none, author := none, year := some 2147483647 } :=
  ⟨((year_must_fit_i32 [("id", Json.str goneIdStr), ("year", Json.num 2147483648)]
      sampleIdStr [] goneId none none 2147483648 rfl rfl rfl rfl).1 (by decide)).1,
   ((year_must_fit_i32 [("id", Json.str goneIdStr), ("year", Json.num 2147483647)]
      sampleIdStr [] goneId none none 2147483647 rfl rfl rfl rfl).2 (by decide)).1⟩

end Crud
